import Mathlib

/-!
# GstRtspStreamer: graph builder, lifecycle controller, event monitor, frame relay

A shallow embedding of `src/streaming/gst_rtsp_streamer.cpp` (with the header
`gst_rtsp_streamer.h` and the wrapper lambda of `python_bindings.cpp`).

The media engine is an external library.  Its answers (does a factory return a
null pointer, does a link succeed, what does the bus pop, does a buffer map) are
parameters of the definitions below; what the code hands to the library
(properties, caps, links, state changes) is recorded in the values that stand
for the library objects.  A C pointer is an `Option`: `none` is the null
pointer.
-/

/-! ## Library objects -/

/-- A typed field of a caps structure, as passed to `gst_caps_new_simple`. -/
inductive GstCapsField where
  | int (v : Int)
  | string (s : String)
  | fraction (num den : Int)
  deriving DecidableEq, Repr

/-- Caps with a single structure: the media type and its fields. -/
structure GstCaps where
  media_type : String
  fields : List (String × GstCapsField)
  deriving DecidableEq, Repr

/-- A value handed to `g_object_set`. -/
inductive GValue where
  | int (v : Int)
  | bool (b : Bool)
  | string (s : String)
  | caps (c : GstCaps)
  deriving DecidableEq, Repr

/-- The two static handlers the streamer connects to signals. The handler of
`pad-added` carries the name of the element given as user data. -/
inductive GCallback where
  | on_pad_added (data : String)
  | on_new_sample
  deriving DecidableEq, Repr

/-- An element of the graph: the factory that made it, its name, the properties
set on it (most recent first), the handlers connected to its signals, and the
peers linked to its static sink pad. -/
structure GstElement where
  factory : String
  name : String
  props : List (String × GValue)
  signals : List (String × GCallback)
  sink_peers : List String
  deriving DecidableEq, Repr

/-- States of a pipeline, as in `GstState`. -/
inductive GstState where
  | GST_STATE_VOID_PENDING
  | GST_STATE_NULL
  | GST_STATE_READY
  | GST_STATE_PAUSED
  | GST_STATE_PLAYING
  deriving DecidableEq, Repr

/-- The pipeline bin: its name, its state and the names of its children. -/
structure GstPipeline where
  name : String
  state : GstState
  children : List String
  deriving DecidableEq, Repr

/-- Answers of the library to the calls made by `create_pipeline`: whether
`gst_pipeline_new` returns a pipeline, whether `gst_element_factory_make` returns
an element for a factory name, whether `gst_element_link_many` succeeds. -/
structure GstLibrary where
  pipeline_new : Bool
  element_factory_make : String → Bool
  element_link_many : Bool

/-- The library call `gst_pipeline_new(name)`. -/
def gst_pipeline_new (lib : GstLibrary) (name : String) : Option GstPipeline :=
  if lib.pipeline_new then some ⟨name, .GST_STATE_NULL, []⟩ else none

/-- The library call `gst_element_factory_make(factory, name)`. -/
def gst_element_factory_make (lib : GstLibrary) (factory name : String) : Option GstElement :=
  if lib.element_factory_make factory then some ⟨factory, name, [], [], []⟩ else none

/-- The library call `g_object_set(object, key, value, nullptr)`; nothing is set
through a null pointer. -/
def g_object_set (object : Option GstElement) (key : String) (value : GValue) :
    Option GstElement :=
  object.map fun e => { e with props := (key, value) :: e.props }

/-- The value most recently set for `key` on the object. -/
def g_object_get (object : Option GstElement) (key : String) : Option GValue :=
  object.bind fun e => e.props.lookup key

/-- The library call `g_signal_connect(instance, signal, handler, data)`. -/
def g_signal_connect (object : Option GstElement) (signal : String) (handler : GCallback) :
    Option GstElement :=
  object.map fun e => { e with signals := (signal, handler) :: e.signals }

/-- The library call `gst_caps_new_simple(media_type, fields..., nullptr)`. -/
def gst_caps_new_simple (media_type : String) (fields : List (String × GstCapsField)) : GstCaps :=
  ⟨media_type, fields⟩

/-- The library call `gst_bin_add_many(bin, elements..., nullptr)`. -/
def gst_bin_add_many (bin : Option GstPipeline) (elements : List (Option GstElement)) :
    Option GstPipeline :=
  bin.map fun p => { p with children := p.children ++ elements.filterMap (Option.map GstElement.name) }

/-- The library call `gst_element_set_state(pipeline, state)`. -/
def gst_element_set_state (pipeline : Option GstPipeline) (state : GstState) :
    Option GstPipeline :=
  pipeline.map fun p => { p with state := state }

/-- Effect of a successful static link `upstream -> downstream` on the
downstream element: its sink pad gets the upstream element as peer. -/
def gst_element_link (upstream downstream : Option GstElement) : Option GstElement :=
  downstream.map fun d =>
    { d with sink_peers := (upstream.map GstElement.name).toList ++ d.sink_peers }

/-! ## The streamer object -/

/-- The member `std::thread message_thread`. A thread object is joinable from
the moment it is given a function to run until it is joined, whether or not
the function has returned meanwhile. -/
inductive StdThread where
  | not_joinable
  | executing
  | returned
  deriving DecidableEq, Repr

/-- The C++ `std::thread::joinable()`. -/
def StdThread.joinable : StdThread → Bool
  | .not_joinable => false
  | .executing => true
  | .returned => true

/-- A frame callback value (`std::function`), named by an identifier; what a
call of it does is a parameter of `on_new_sample`. -/
structure FrameCallback where
  id : Nat
  deriving DecidableEq, Repr

/-- The data members of `class GstRtspStreamer`. -/
structure GstRtspStreamer where
  pipeline : Option GstPipeline
  source : Option GstElement
  depay : Option GstElement
  parser : Option GstElement
  decoder : Option GstElement
  converter : Option GstElement
  videoscale : Option GstElement
  capsfilter : Option GstElement
  encoder : Option GstElement
  appsink : Option GstElement
  rtsp_url : String
  running : Bool
  low_latency : Bool
  message_thread : StdThread
  target_width : Int
  target_height : Int
  target_bitrate : Int
  frame_callback : Option FrameCallback
  deriving DecidableEq, Repr

/-- The constructor `GstRtspStreamer::GstRtspStreamer()` (lines 5-12). The element
pointers are not in the initialiser list; they are taken as null. -/
def GstRtspStreamer.new : GstRtspStreamer where
  pipeline := none
  source := none
  depay := none
  parser := none
  decoder := none
  converter := none
  videoscale := none
  capsfilter := none
  encoder := none
  appsink := none
  rtsp_url := ""
  running := false
  low_latency := true
  message_thread := .not_joinable
  target_width := 1920
  target_height := 1080
  target_bitrate := 4000
  frame_callback := none

/-- The accessor `is_running()` of the header. -/
def GstRtspStreamer.is_running (self : GstRtspStreamer) : Bool :=
  self.running

/-- The method `cleanup_pipeline` (lines 104-110). -/
def GstRtspStreamer.cleanup_pipeline (self : GstRtspStreamer) : GstRtspStreamer :=
  if self.pipeline.isSome then
    { self with pipeline := none }
  else
    self

/-- The method `create_pipeline` (lines 27-102). -/
def GstRtspStreamer.create_pipeline (lib : GstLibrary) (self : GstRtspStreamer) :
    GstRtspStreamer :=
  let self := { self with
    pipeline := gst_pipeline_new lib "rtsp-pipeline"
    source := gst_element_factory_make lib "rtspsrc" "source"
    depay := gst_element_factory_make lib "rtph264depay" "depay"
    parser := gst_element_factory_make lib "h264parse" "parser"
    decoder := gst_element_factory_make lib "avdec_h264" "decoder"
    converter := gst_element_factory_make lib "videoconvert" "converter"
    videoscale := gst_element_factory_make lib "videoscale" "scale"
    capsfilter := gst_element_factory_make lib "capsfilter" "filter"
    encoder := gst_element_factory_make lib "x264enc" "encoder"
    appsink := gst_element_factory_make lib "appsink" "sink" }
  if self.pipeline.isNone || self.source.isNone || self.depay.isNone || self.parser.isNone
      || self.decoder.isNone || self.converter.isNone || self.videoscale.isNone
      || self.capsfilter.isNone || self.encoder.isNone || self.appsink.isNone then
    self.cleanup_pipeline
  else
    let source := g_object_set self.source "location" (.string self.rtsp_url)
    let source := g_object_set source "latency" (.int (if self.low_latency then 0 else 200))
    let source := g_object_set source "buffer-mode" (.int (if self.low_latency then 0 else 1))
    let source := g_object_set source "protocols" (.int 4)
    let source := g_object_set source "tcp-timeout" (.int 5000000)
    let source :=
      if self.low_latency then g_object_set source "do-rtsp-keep-alive" (.bool true) else source
    let decoder :=
      if self.low_latency then g_object_set self.decoder "max-threads" (.int 4) else self.decoder
    let caps := gst_caps_new_simple "video/x-raw"
      [("width", .int self.target_width), ("height", .int self.target_height),
       ("framerate", .fraction 30 1)]
    let capsfilter := g_object_set self.capsfilter "caps" (.caps caps)
    let encoder := g_object_set self.encoder "tune" (.int 4)
    let encoder := g_object_set encoder "speed-preset" (.int 1)
    let encoder := g_object_set encoder "bitrate" (.int self.target_bitrate)
    let encoder := g_object_set encoder "key-int-max" (.int 30)
    let encoder :=
      if self.low_latency then
        let encoder := g_object_set encoder "threads" (.int 4)
        let encoder := g_object_set encoder "sliced-threads" (.bool true)
        let encoder := g_object_set encoder "sync-lookahead" (.int 0)
        let encoder := g_object_set encoder "rc-lookahead" (.int 0)
        g_object_set encoder "bframes" (.int 0)
      else encoder
    let appsink := g_object_set self.appsink "emit-signals" (.bool true)
    let appsink := g_object_set appsink "sync" (.bool false)
    let appsink := g_object_set appsink "max-buffers" (.int (if self.low_latency then 1 else 3))
    let appsink := g_object_set appsink "drop" (.bool true)
    let sink_caps := gst_caps_new_simple "video/x-h264"
      [("stream-format", .string "byte-stream"), ("alignment", .string "au")]
    let appsink := g_object_set appsink "caps" (.caps sink_caps)
    let pipeline := gst_bin_add_many self.pipeline
      [source, self.depay, self.parser, decoder, self.converter, self.videoscale,
       capsfilter, encoder, appsink]
    let source := g_signal_connect source "pad-added" (.on_pad_added "depay")
    let self := { self with
      pipeline := pipeline, source := source, decoder := decoder,
      capsfilter := capsfilter, encoder := encoder, appsink := appsink }
    if !lib.element_link_many then
      self.cleanup_pipeline
    else
      let appsink := gst_element_link self.encoder self.appsink
      let appsink := g_signal_connect appsink "new-sample" .on_new_sample
      { self with
        parser := gst_element_link self.depay self.parser
        decoder := gst_element_link self.parser self.decoder
        converter := gst_element_link self.decoder self.converter
        videoscale := gst_element_link self.converter self.videoscale
        capsfilter := gst_element_link self.videoscale self.capsfilter
        encoder := gst_element_link self.capsfilter self.encoder
        appsink := appsink }

/-- The method `initialize(url, low_latency_mode)` (lines 19-25): the new state
of the object and the boolean returned. -/
def GstRtspStreamer.initialize (lib : GstLibrary) (self : GstRtspStreamer) (url : String)
    (low_latency_mode : Bool) : GstRtspStreamer × Bool :=
  let self := { self with rtsp_url := url }
  let self := { self with low_latency := low_latency_mode }
  let self := self.create_pipeline lib
  (self, self.pipeline.isSome)

/-! ## Event monitor -/

/-- Kinds of bus message, `GST_MESSAGE_TYPE(msg)`: the two the loop names, and
every other kind under its numeric code. -/
inductive GstMessageType where
  | GST_MESSAGE_ERROR
  | GST_MESSAGE_EOS
  | other (code : Nat)
  deriving DecidableEq, Repr

/-- The body of the loop of `handle_messages` (lines 139-160) for one result of
`gst_bus_timed_pop`; `none` is a wait that timed out. The line written to
`std::cerr` and the release of the message are not part of the state. -/
def GstRtspStreamer.handle_message (self : GstRtspStreamer) (msg : Option GstMessageType) :
    GstRtspStreamer :=
  match msg with
  | none => self
  | some .GST_MESSAGE_ERROR => { self with running := false }
  | some .GST_MESSAGE_EOS => { self with running := false }
  | some (.other _) => self

/-- The method `handle_messages` (lines 135-164), run by the monitor thread
without interference, against the results `bus` that successive calls of
`gst_bus_timed_pop` give. Returns the state when the loop is left together with
the results never popped; when `bus` is used up while `running` still holds the
loop is still going, and the thread is still executing. -/
def GstRtspStreamer.handle_messages (self : GstRtspStreamer) :
    List (Option GstMessageType) → GstRtspStreamer × List (Option GstMessageType)
  | [] =>
    if self.running then (self, [])
    else ({ self with message_thread := .returned }, [])
  | msg :: bus =>
    if self.running then
      (self.handle_message msg).handle_messages bus
    else
      ({ self with message_thread := .returned }, msg :: bus)

/-- One step of the monitor thread interleaved with the caller thread: the
loop condition of line 138 is read and, when it holds, one body is run on
`msg`. A thread object that is not executing takes no step. -/
def GstRtspStreamer.monitor_step (self : GstRtspStreamer) (msg : Option GstMessageType) :
    GstRtspStreamer :=
  match self.message_thread with
  | .executing =>
    if self.running then self.handle_message msg
    else { self with message_thread := .returned }
  | _ => self

/-- Steps of the monitor thread, one after the other, on successive results
of `gst_bus_timed_pop`. -/
def GstRtspStreamer.monitor_steps (self : GstRtspStreamer) :
    List (Option GstMessageType) → GstRtspStreamer
  | [] => self
  | msg :: rest => (self.monitor_step msg).monitor_steps rest

/-! ## Lifecycle controller -/

/-- The method `start` (lines 112-119). Line 118 move-assigns a new thread to
`message_thread`; by the C++ standard, move-assignment to a thread object that
is still joinable calls `std::terminate`, which is the result `none` here: the
process ends and `start` does not return. The thread created on line 118 runs
`handle_messages` at once, concurrently with the rest of `start`: `early` holds
the results of `gst_bus_timed_pop` it goes through before `start` returns to its
caller (`[]` when it has not yet taken a step by then). -/
def GstRtspStreamer.start (self : GstRtspStreamer) (early : List (Option GstMessageType)) :
    Option GstRtspStreamer :=
  if self.pipeline.isNone || self.running then
    some self
  else
    let self := { self with running := true }
    let self := { self with pipeline := gst_element_set_state self.pipeline .GST_STATE_PLAYING }
    if self.message_thread.joinable then
      none
    else
      let self := { self with message_thread := .executing }
      some (self.monitor_steps early)

/-- The method `stop` (lines 121-133). `join` returns once `handle_messages` has
returned, which it does at its next reading of `running`, cleared on line 124;
after `join` the thread object is not joinable. -/
def GstRtspStreamer.stop (self : GstRtspStreamer) : GstRtspStreamer :=
  if !self.running then
    self
  else
    let self := { self with running := false }
    let self :=
      if self.pipeline.isSome then
        { self with pipeline := gst_element_set_state self.pipeline .GST_STATE_NULL }
      else self
    if self.message_thread.joinable then
      { self with message_thread := .not_joinable }
    else
      self

/-! ## Setters -/

/-- The method `set_frame_callback` (lines 166-169); an empty `std::function` is
`none`. -/
def GstRtspStreamer.set_frame_callback (self : GstRtspStreamer)
    (callback : Option FrameCallback) : GstRtspStreamer :=
  { self with frame_callback := callback }

/-- The method `set_low_latency_mode` (lines 171-173). -/
def GstRtspStreamer.set_low_latency_mode (self : GstRtspStreamer) (enable : Bool) :
    GstRtspStreamer :=
  { self with low_latency := enable }

/-- The method `set_target_bitrate` (lines 175-177). -/
def GstRtspStreamer.set_target_bitrate (self : GstRtspStreamer) (bitrate_kbps : Int) :
    GstRtspStreamer :=
  { self with target_bitrate := bitrate_kbps }

/-- The method `set_resolution` (lines 179-182). -/
def GstRtspStreamer.set_resolution (self : GstRtspStreamer) (width height : Int) :
    GstRtspStreamer :=
  let self := { self with target_width := width }
  { self with target_height := height }

/-! ## Calls on one instance, in sequence -/

/-- A call of the public interface by the caller thread, or a step of the
monitor thread. A call of `start` comes with the steps the new monitor thread
takes before the call returns. -/
inductive StreamerAction where
  | initialize_call (lib : GstLibrary) (url : String) (low_latency_mode : Bool)
  | start_call (early : List (Option GstMessageType))
  | stop_call
  | monitor (msg : Option GstMessageType)

/-- Effect of one action; `none` when the process was terminated. -/
def GstRtspStreamer.perform (self : GstRtspStreamer) : StreamerAction → Option GstRtspStreamer
  | .initialize_call lib url low_latency_mode =>
    some ( GstRtspStreamer.initialize lib self url low_latency_mode).1
  | .start_call early => self.start early
  | .stop_call => some self.stop
  | .monitor msg => some (self.monitor_step msg)

/-- Effect of a sequence of actions, from left to right. -/
def GstRtspStreamer.run (self : GstRtspStreamer) : List StreamerAction → Option GstRtspStreamer
  | [] => some self
  | a :: rest => (self.perform a).bind fun next => next.run rest

/-- A library in which every creation and the static link succeed. -/
def GstLibrary.working : GstLibrary :=
  ⟨true, fun _ => true, true⟩

/-! ## Frame relay -/

/-- Result of `gst_buffer_map`: the data pointer and the size of the mapping. -/
structure GstMapInfo where
  data : Nat
  size : Nat
  deriving DecidableEq, Repr

/-- A buffer; `map` is what `gst_buffer_map(buffer, &map, GST_MAP_READ)` gives,
`none` when the mapping fails. -/
structure GstBuffer where
  map : Option GstMapInfo
  deriving DecidableEq, Repr

/-- A sample pulled from the sink: its buffer and its negotiated caps. -/
structure GstSample where
  buffer : GstBuffer
  caps : GstCaps
  deriving DecidableEq, Repr

/-- The library call `gst_structure_get_int(structure, field, &value)`: the
variable keeps its previous content when the structure has no such integer. -/
def gst_structure_get_int (structure_ : GstCaps) (field : String) (value : Int) : Int :=
  match structure_.fields.lookup field with
  | some (.int v) => v
  | _ => value

/-- Values of `GstFlowReturn`. -/
inductive GstFlowReturn where
  | GST_FLOW_OK
  | GST_FLOW_EOS
  | GST_FLOW_ERROR
  deriving DecidableEq, Repr

/-- One call of a frame callback with its four arguments. -/
structure FrameCall where
  callback : FrameCallback
  data : Nat
  size : Nat
  width : Int
  height : Int
  deriving DecidableEq, Repr

/-- How a call of a frame callback ends: it returns, or it throws. -/
inductive CallOutcome where
  | returns
  | throws (what : String)
  deriving DecidableEq, Repr

/-- How `on_new_sample` ends: it returns a flow value to the pipeline thread
that called it, or an exception leaves it into that thread. -/
inductive Completion where
  | returned (flow : GstFlowReturn)
  | exception (what : String)
  deriving DecidableEq, Repr

/-- What one run of `on_new_sample` did: the callbacks it called, in order, and
how it ended. -/
structure FrameRelay where
  calls : List FrameCall
  completion : Completion
  deriving DecidableEq, Repr

/-- The static handler `on_new_sample` (lines 184-209). `invoke` says how a call of
a callback ends, `pulled` is the result of `gst_app_sink_pull_sample`, and
`width0`, `height0` are the contents of the two uninitialised locals of line 198.
The body has no `try`: when the call on line 202 throws, the exception leaves
the function. -/
def on_new_sample (invoke : FrameCall → CallOutcome) (width0 height0 : Int)
    (pulled : Option GstSample) (streamer : GstRtspStreamer) : FrameRelay :=
  match pulled with
  | none => ⟨[], .returned .GST_FLOW_OK⟩
  | some sample =>
    match sample.buffer.map with
    | some map =>
      match streamer.frame_callback with
      | some frame_callback =>
        let width := gst_structure_get_int sample.caps "width" width0
        let height := gst_structure_get_int sample.caps "height" height0
        let call : FrameCall := ⟨frame_callback, map.data, map.size, width, height⟩
        match invoke call with
        | .returns => ⟨[call], .returned .GST_FLOW_OK⟩
        | .throws what => ⟨[call], .exception what⟩
      | none => ⟨[], .returned .GST_FLOW_OK⟩
    | none => ⟨[], .returned .GST_FLOW_OK⟩

/-- Registration of a list of callbacks one after the other. -/
def GstRtspStreamer.set_frame_callbacks (self : GstRtspStreamer) :
    List (Option FrameCallback) → GstRtspStreamer
  | [] => self
  | callback :: rest => (self.set_frame_callback callback).set_frame_callbacks rest

/-! ## The wrapper of the Python binding -/

/-- A Python callable held by the binding. -/
structure PyFunction where
  id : Nat
  deriving DecidableEq, Repr

/-- The data members of `class PyGstRtspStreamer`. -/
structure PyGstRtspStreamer where
  streamer : GstRtspStreamer
  py_callback : Option PyFunction
  deriving DecidableEq, Repr

/-- The callback value under which the lambda of line 36 is registered. -/
def PyGstRtspStreamer.wrapper : FrameCallback :=
  ⟨0⟩

/-- The method `PyGstRtspStreamer::set_frame_callback` (lines 33-49). -/
def PyGstRtspStreamer.set_frame_callback (self : PyGstRtspStreamer)
    (callback : Option PyFunction) : PyGstRtspStreamer :=
  let self := { self with py_callback := callback }
  { self with streamer := self.streamer.set_frame_callback (some PyGstRtspStreamer.wrapper) }

/-! ## Dynamic pad of the source -/

/-- The library call `gst_pad_is_linked` on the static sink pad of an element. -/
def gst_pad_is_linked (element : GstElement) : Bool :=
  !element.sink_peers.isEmpty

/-- The library call `gst_pad_link(pad, sink_pad)` with its answer `link_ok`: a
successful link adds `pad` to the peers of the sink pad. The refusal the
library itself makes for a pad that already has a peer is left out, so that
whatever holds below holds by the check made in `on_pad_added`. -/
def gst_pad_link (link_ok : Bool) (pad : String) (element : GstElement) : GstElement :=
  if link_ok then { element with sink_peers := pad :: element.sink_peers } else element

/-- The static handler `on_pad_added` (lines 211-222), with `depay` the element
passed as `data`: the element afterwards, and the pads given to `gst_pad_link`. -/
def on_pad_added (link_ok : Bool) (pad : String) (depay : GstElement) :
    GstElement × List String :=
  if gst_pad_is_linked depay then
    (depay, [])
  else
    (gst_pad_link link_ok pad depay, [pad])

/-- One `pad-added` notification of the source: the new pad, and the answer
`gst_pad_link` would give for it. -/
structure PadAdded where
  pad : String
  link_ok : Bool
  deriving DecidableEq, Repr

/-- A sequence of `pad-added` notifications, handled in order: the element
afterwards, and all the pads given to `gst_pad_link`. -/
def pad_added_sequence (depay : GstElement) : List PadAdded → GstElement × List String
  | [] => (depay, [])
  | n :: rest =>
    let first := on_pad_added n.link_ok n.pad depay
    let others := pad_added_sequence first.1 rest
    (others.1, first.2 ++ others.2)

/-- All eleven answers of the library that `create_pipeline` asks for are positive. -/
def GstLibrary.all_succeed (lib : GstLibrary) : Bool :=
  lib.pipeline_new && lib.element_factory_make "rtspsrc"
    && lib.element_factory_make "rtph264depay" && lib.element_factory_make "h264parse"
    && lib.element_factory_make "avdec_h264" && lib.element_factory_make "videoconvert"
    && lib.element_factory_make "videoscale" && lib.element_factory_make "capsfilter"
    && lib.element_factory_make "x264enc" && lib.element_factory_make "appsink"
    && lib.element_link_many

/-! ## Facts about the graph builder -/

theorem cleanup_pipeline_pipeline (self : GstRtspStreamer) :
    self.cleanup_pipeline.pipeline = none := by
  unfold GstRtspStreamer.cleanup_pipeline
  split
  · rfl
  · simpa using ‹¬ self.pipeline.isSome = true›

theorem create_pipeline_isSome (lib : GstLibrary) (self : GstRtspStreamer) :
    (self.create_pipeline lib).pipeline.isSome = lib.all_succeed := by
  unfold GstRtspStreamer.create_pipeline GstLibrary.all_succeed
  simp only [gst_pipeline_new, gst_element_factory_make]
  cases lib.pipeline_new
  · simp [cleanup_pipeline_pipeline]
  cases lib.element_factory_make "rtspsrc"
  · simp [cleanup_pipeline_pipeline]
  cases lib.element_factory_make "rtph264depay"
  · simp [cleanup_pipeline_pipeline]
  cases lib.element_factory_make "h264parse"
  · simp [cleanup_pipeline_pipeline]
  cases lib.element_factory_make "avdec_h264"
  · simp [cleanup_pipeline_pipeline]
  cases lib.element_factory_make "videoconvert"
  · simp [cleanup_pipeline_pipeline]
  cases lib.element_factory_make "videoscale"
  · simp [cleanup_pipeline_pipeline]
  cases lib.element_factory_make "capsfilter"
  · simp [cleanup_pipeline_pipeline]
  cases lib.element_factory_make "x264enc"
  · simp [cleanup_pipeline_pipeline]
  cases lib.element_factory_make "appsink"
  · simp [cleanup_pipeline_pipeline]
  cases lib.element_link_many
  · simp [cleanup_pipeline_pipeline]
  · simp [gst_bin_add_many]

theorem initialize_returns (lib : GstLibrary) (self : GstRtspStreamer) (url : String)
    (low_latency_mode : Bool) :
    ( GstRtspStreamer.initialize lib self url low_latency_mode).2 = lib.all_succeed := by
  simp only [ GstRtspStreamer.initialize]
  exact create_pipeline_isSome lib _

theorem initialize_pipeline_isSome (lib : GstLibrary) (self : GstRtspStreamer) (url : String)
    (low_latency_mode : Bool) :
    ( GstRtspStreamer.initialize lib self url low_latency_mode).1.pipeline.isSome
      = lib.all_succeed := by
  simp only [ GstRtspStreamer.initialize]
  exact create_pipeline_isSome lib _

/-- Configuration of the graph that a successful `create_pipeline` leaves in the
object. -/
theorem create_pipeline_configuration (lib : GstLibrary) (self : GstRtspStreamer)
    (h : lib.all_succeed = true) :
    g_object_get (self.create_pipeline lib).appsink "emit-signals" = some (.bool true)
    ∧ g_object_get (self.create_pipeline lib).appsink "sync" = some (.bool false)
    ∧ g_object_get (self.create_pipeline lib).appsink "drop" = some (.bool true)
    ∧ g_object_get (self.create_pipeline lib).appsink "max-buffers"
        = some (.int (if self.low_latency then 1 else 3))
    ∧ g_object_get (self.create_pipeline lib).capsfilter "caps"
        = some (.caps ⟨"video/x-raw", [("width", .int self.target_width),
            ("height", .int self.target_height), ("framerate", .fraction 30 1)]⟩)
    ∧ g_object_get (self.create_pipeline lib).encoder "bitrate"
        = some (.int self.target_bitrate) := by
  simp only [GstLibrary.all_succeed, Bool.and_eq_true] at h
  obtain ⟨⟨⟨⟨⟨⟨⟨⟨⟨⟨h0, h1⟩, h2⟩, h3⟩, h4⟩, h5⟩, h6⟩, h7⟩, h8⟩, h9⟩, h10⟩ := h
  unfold GstRtspStreamer.create_pipeline
  simp only [gst_pipeline_new, gst_element_factory_make, h0, h1, h2, h3, h4, h5, h6, h7, h8, h9,
    h10]
  cases self.low_latency <;>
    simp [g_object_get, g_object_set, g_signal_connect, gst_element_link, List.lookup,
      gst_caps_new_simple]

/-! ## Facts about the lifecycle controller -/

theorem stop_running (self : GstRtspStreamer) : self.stop.running = false := by
  unfold GstRtspStreamer.stop
  cases h : self.running <;> simp [h]
  split <;> split <;> rfl

/-- A call of `stop` made while `running` holds joins the monitor thread. -/
theorem stop_joins_when_running (self : GstRtspStreamer) (h : self.running = true) :
    self.stop.message_thread.joinable = false := by
  unfold GstRtspStreamer.stop
  simp only [h, Bool.not_true, Bool.false_eq_true, if_false]
  cases hj : self.message_thread.joinable
  · split <;> simp [hj]
  · split <;> simp [hj, StdThread.joinable]

theorem handle_message_running_false (self : GstRtspStreamer) (msg : Option GstMessageType)
    (h : self.running = false) : (self.handle_message msg).running = false := by
  unfold GstRtspStreamer.handle_message
  split <;> first | rfl | exact h

theorem monitor_step_running_false (self : GstRtspStreamer) (msg : Option GstMessageType)
    (h : self.running = false) : (self.monitor_step msg).running = false := by
  unfold GstRtspStreamer.monitor_step
  split
  · simp [h]
  · exact h

/-- The monitor thread never sets `running`. -/
theorem monitor_steps_running_false (self : GstRtspStreamer)
    (bus : List (Option GstMessageType)) (h : self.running = false) :
    (self.monitor_steps bus).running = false := by
  induction bus generalizing self with
  | nil => exact h
  | cons msg rest ih => exact ih _ (monitor_step_running_false self msg h)

/-- A running monitor thread leaves `running` set exactly when none of the
messages it pops is an error or an end of stream. -/
theorem monitor_steps_running (self : GstRtspStreamer) (bus : List (Option GstMessageType))
    (ht : self.message_thread = .executing) (h : self.running = true) :
    (self.monitor_steps bus).is_running = true ↔
      ∀ msg ∈ bus, msg ≠ some .GST_MESSAGE_ERROR ∧ msg ≠ some .GST_MESSAGE_EOS := by
  induction bus with
  | nil => simpa [GstRtspStreamer.monitor_steps, GstRtspStreamer.is_running] using h
  | cons msg rest ih =>
    have hstep : self.monitor_step msg = self.handle_message msg := by
      simp [GstRtspStreamer.monitor_step, ht, h]
    simp only [GstRtspStreamer.monitor_steps, hstep, List.forall_mem_cons]
    match msg with
    | none => simpa [GstRtspStreamer.handle_message] using ih
    | some (.other code) => simpa [GstRtspStreamer.handle_message] using ih
    | some .GST_MESSAGE_ERROR =>
      simp [GstRtspStreamer.is_running,
        monitor_steps_running_false (self.handle_message (some .GST_MESSAGE_ERROR)) rest rfl]
    | some .GST_MESSAGE_EOS =>
      simp [GstRtspStreamer.is_running,
        monitor_steps_running_false (self.handle_message (some .GST_MESSAGE_EOS)) rest rfl]

/-- With a thread object that is still joinable, `start` past its guard ends the
process on line 118. -/
theorem start_terminates_when_joinable (self : GstRtspStreamer)
    (early : List (Option GstMessageType)) (hp : self.pipeline.isSome = true)
    (hr : self.running = false) (hj : self.message_thread.joinable = true) :
    self.start early = none := by
  cases hpipe : self.pipeline with
  | none => simp [hpipe] at hp
  | some p => simp [GstRtspStreamer.start, hpipe, hr, hj]

/-- The joinable thread object needs no call of `stop`: after `initialize`,
`start` and a monitor step that pops an end-of-stream message, a second `start`
ends the process. -/
theorem start_after_monitor_cleared_running :
    GstRtspStreamer.new.run
      [.initialize_call GstLibrary.working "rtsp://cam.local/stream1" true, .start_call [],
       .monitor (some .GST_MESSAGE_EOS), .start_call []] = none := by
  decide

/-- A monitor thread that reads `running` as false leaves its loop. -/
theorem monitor_step_exits (self : GstRtspStreamer) (msg : Option GstMessageType)
    (ht : self.message_thread = .executing) (h : self.running = false) :
    (self.monitor_step msg).message_thread = .returned := by
  simp [GstRtspStreamer.monitor_step, ht, h]

/-- The method `initialize` does not read the previous value of `low_latency`. -/
theorem initialize_forgets_low_latency (lib : GstLibrary) (self : GstRtspStreamer)
    (enable : Bool) (url : String) (low_latency_mode : Bool) :
    GstRtspStreamer.initialize lib (self.set_low_latency_mode enable) url low_latency_mode
      = GstRtspStreamer.initialize lib self url low_latency_mode := by
  rfl

/-! ## Facts about the dynamic pad -/

theorem pad_added_sequence_linked (depay : GstElement) (later : List PadAdded)
    (h : gst_pad_is_linked depay = true) : pad_added_sequence depay later = (depay, []) := by
  induction later with
  | nil => rfl
  | cons n rest ih => simp [pad_added_sequence, on_pad_added, h, ih]

theorem on_pad_added_peers (link_ok : Bool) (pad : String) (depay : GstElement)
    (h : depay.sink_peers.length ≤ 1) :
    (on_pad_added link_ok pad depay).1.sink_peers.length ≤ 1 := by
  unfold on_pad_added
  cases hl : gst_pad_is_linked depay
  · have hnil : depay.sink_peers = [] := by
      simpa [gst_pad_is_linked] using hl
    cases link_ok <;> simp [gst_pad_link, hnil]
  · simpa using h

theorem pad_added_sequence_peers (depay : GstElement) (notifications : List PadAdded)
    (h : depay.sink_peers.length ≤ 1) :
    (pad_added_sequence depay notifications).1.sink_peers.length ≤ 1 := by
  induction notifications generalizing depay with
  | nil => simpa [pad_added_sequence] using h
  | cons n rest ih =>
    simp only [pad_added_sequence]
    exact ih _ (on_pad_added_peers n.link_ok n.pad depay h)

theorem cleanup_pipeline_low_latency (self : GstRtspStreamer) :
    self.cleanup_pipeline.low_latency = self.low_latency := by
  unfold GstRtspStreamer.cleanup_pipeline
  split <;> rfl

theorem create_pipeline_low_latency (lib : GstLibrary) (self : GstRtspStreamer) :
    (self.create_pipeline lib).low_latency = self.low_latency := by
  unfold GstRtspStreamer.create_pipeline
  simp only
  split
  · rw [cleanup_pipeline_low_latency]
  · split
    · rw [cleanup_pipeline_low_latency]
    · rfl

theorem pad_added_sequence_append (depay : GstElement) (earlier later : List PadAdded) :
    pad_added_sequence depay (earlier ++ later)
      = ((pad_added_sequence (pad_added_sequence depay earlier).1 later).1,
          (pad_added_sequence depay earlier).2
            ++ (pad_added_sequence (pad_added_sequence depay earlier).1 later).2) := by
  induction earlier generalizing depay with
  | nil => simp [pad_added_sequence]
  | cons n rest ih => simp [pad_added_sequence, ih]

/-! ## The claims -/

/-- C1: for every URL, low-latency flag, previous state and answers of the
library, `initialize` returns true exactly when the pipeline and the nine
elements were all created (non-null) and the static link succeeded; when it
returns false the `pipeline` member is null and a following `start` returns
leaving the object as it is, whatever the bus would give. -/
theorem initialize_true_iff_created_and_linked (lib : GstLibrary) (self : GstRtspStreamer)
    (url : String) (low_latency_mode : Bool) (early : List (Option GstMessageType)) :
    (( GstRtspStreamer.initialize lib self url low_latency_mode).2 = true ↔
      ((gst_pipeline_new lib "rtsp-pipeline").isSome = true
        ∧ (gst_element_factory_make lib "rtspsrc" "source").isSome = true
        ∧ (gst_element_factory_make lib "rtph264depay" "depay").isSome = true
        ∧ (gst_element_factory_make lib "h264parse" "parser").isSome = true
        ∧ (gst_element_factory_make lib "avdec_h264" "decoder").isSome = true
        ∧ (gst_element_factory_make lib "videoconvert" "converter").isSome = true
        ∧ (gst_element_factory_make lib "videoscale" "scale").isSome = true
        ∧ (gst_element_factory_make lib "capsfilter" "filter").isSome = true
        ∧ (gst_element_factory_make lib "x264enc" "encoder").isSome = true
        ∧ (gst_element_factory_make lib "appsink" "sink").isSome = true
        ∧ lib.element_link_many = true))
    ∧ (( GstRtspStreamer.initialize lib self url low_latency_mode).2 = false →
        ( GstRtspStreamer.initialize lib self url low_latency_mode).1.pipeline = none
        ∧ ( GstRtspStreamer.initialize lib self url low_latency_mode).1.start early
            = some ( GstRtspStreamer.initialize lib self url low_latency_mode).1) := by
  constructor
  · rw [initialize_returns]
    have hpipeline : (gst_pipeline_new lib "rtsp-pipeline").isSome = lib.pipeline_new := by
      unfold gst_pipeline_new
      cases lib.pipeline_new <;> rfl
    have hmake : ∀ factory name,
        (gst_element_factory_make lib factory name).isSome = lib.element_factory_make factory := by
      intro factory name
      unfold gst_element_factory_make
      cases lib.element_factory_make factory <;> rfl
    simp [GstLibrary.all_succeed, and_assoc, hpipeline, hmake]
  · intro hfalse
    have hnone : ( GstRtspStreamer.initialize lib self url low_latency_mode).1.pipeline = none := by
      have hs := initialize_pipeline_isSome lib self url low_latency_mode
      rw [← initialize_returns lib self url low_latency_mode, hfalse] at hs
      simpa using hs
    refine ⟨hnone, ?_⟩
    simp [GstRtspStreamer.start, hnone]

/-- Instance of C1: a library without the `x264enc` factory. -/
theorem initialize_true_iff_created_and_linked_witness :
    ( GstRtspStreamer.initialize ⟨true, fun factory => factory != "x264enc", true⟩
        GstRtspStreamer.new "rtsp://cam.local/stream1" true).2 = false
    ∧ ( GstRtspStreamer.initialize ⟨true, fun factory => factory != "x264enc", true⟩
        GstRtspStreamer.new "rtsp://cam.local/stream1" true).1.pipeline = none
    ∧ ( GstRtspStreamer.initialize ⟨true, fun factory => factory != "x264enc", true⟩
        GstRtspStreamer.new "rtsp://cam.local/stream1" true).1.start [some .GST_MESSAGE_EOS]
        = some ( GstRtspStreamer.initialize ⟨true, fun factory => factory != "x264enc", true⟩
            GstRtspStreamer.new "rtsp://cam.local/stream1" true).1 :=
  ⟨by decide,
    (initialize_true_iff_created_and_linked ⟨true, fun factory => factory != "x264enc", true⟩
      GstRtspStreamer.new "rtsp://cam.local/stream1" true [some .GST_MESSAGE_EOS]).2
      (by decide)⟩

/-- C2, counterexample: on an initialized, stopped object (a pipeline, `running`
false, no thread yet) the monitor thread spawned by `start` pops an
end-of-stream message before `start` returns; `start` returns with `is_running`
false. -/
theorem start_returns_not_running :
    ¬ (( GstRtspStreamer.initialize GstLibrary.working GstRtspStreamer.new
          "rtsp://cam.local/stream1" true).1.pipeline = none
        ∨ ( GstRtspStreamer.initialize GstLibrary.working GstRtspStreamer.new
          "rtsp://cam.local/stream1" true).1.running = true)
    ∧ (( GstRtspStreamer.initialize GstLibrary.working GstRtspStreamer.new
          "rtsp://cam.local/stream1" true).1.start [some .GST_MESSAGE_EOS]).map
        GstRtspStreamer.is_running = some false := by
  decide

/-- C2, amended: for every state of the object, `start` returns leaving every
member as it is when there is no pipeline or `running` already holds (so on a
freshly constructed object `is_running` stays false). Otherwise, when
`message_thread` is not joinable, `start` returns, having set `running`, put the
pipeline in the playing state and spawned the monitor thread; `is_running` is
true at that return exactly when the monitor thread has not by then popped an
error or end-of-stream message, and in particular when it has not yet taken a
step. -/
theorem start_noop_or_spawns_monitor (self : GstRtspStreamer)
    (early : List (Option GstMessageType)) :
    ((self.pipeline = none ∨ self.running = true) → self.start early = some self)
    ∧ (¬ (self.pipeline = none ∨ self.running = true) →
        self.message_thread.joinable = false →
        self.start early
          = some (({ self with
              running := true
              pipeline := gst_element_set_state self.pipeline .GST_STATE_PLAYING
              message_thread := .executing } : GstRtspStreamer).monitor_steps early)
        ∧ (∃ after, self.start early = some after
            ∧ (after.is_running = true ↔
                ∀ msg ∈ early,
                  msg ≠ some .GST_MESSAGE_ERROR ∧ msg ≠ some .GST_MESSAGE_EOS))
        ∧ (∃ after, self.start [] = some after ∧ after.is_running = true
            ∧ after.message_thread = .executing))
    ∧ GstRtspStreamer.new.start early = some GstRtspStreamer.new
    ∧ GstRtspStreamer.new.is_running = false := by
  refine ⟨?_, ?_, by simp [GstRtspStreamer.start, GstRtspStreamer.new], by decide⟩
  · rintro (h | h) <;> simp [GstRtspStreamer.start, h]
  · intro h hj
    have hp : self.pipeline.isNone = false := by
      cases hp : self.pipeline
      · exact absurd (Or.inl hp) h
      · rfl
    have hr : self.running = false := by
      cases hr : self.running
      · rfl
      · exact absurd (Or.inr hr) h
    have hstart : ∀ bus, self.start bus
        = some (({ self with
            running := true
            pipeline := gst_element_set_state self.pipeline .GST_STATE_PLAYING
            message_thread := .executing } : GstRtspStreamer).monitor_steps bus) := by
      intro bus
      simp [GstRtspStreamer.start, hp, hr, hj]
    refine ⟨hstart early, ⟨_, hstart early, ?_⟩, ⟨_, hstart [], rfl, rfl⟩⟩
    exact monitor_steps_running _ early rfl rfl

/-- Instance of C2 as amended: `start` on an initialized, stopped object, the
monitor thread going through a timeout and a message of another kind before
`start` returns. -/
theorem start_noop_or_spawns_monitor_witness :
    ¬ (( GstRtspStreamer.initialize GstLibrary.working GstRtspStreamer.new
          "rtsp://cam.local/stream1" true).1.pipeline = none
        ∨ ( GstRtspStreamer.initialize GstLibrary.working GstRtspStreamer.new
          "rtsp://cam.local/stream1" true).1.running = true)
    ∧ ( GstRtspStreamer.initialize GstLibrary.working GstRtspStreamer.new
          "rtsp://cam.local/stream1" true).1.message_thread.joinable = false
    ∧ ∃ after, ( GstRtspStreamer.initialize GstLibrary.working GstRtspStreamer.new
          "rtsp://cam.local/stream1" true).1.start [none, some (.other 64)] = some after
        ∧ (after.is_running = true ↔
            ∀ msg ∈ [none, some (GstMessageType.other 64)],
              msg ≠ some .GST_MESSAGE_ERROR ∧ msg ≠ some .GST_MESSAGE_EOS) :=
  ⟨by decide, by decide,
    ((start_noop_or_spawns_monitor ( GstRtspStreamer.initialize GstLibrary.working
      GstRtspStreamer.new "rtsp://cam.local/stream1" true).1
      [none, some (.other 64)]).2.1 (by decide) (by decide)).2.1⟩

/-- C3, at the failing input: after `initialize`, `start` and a monitor step that
pops an end-of-stream message, `stop` returns with `is_running` false and the
thread object still joinable, the monitor thread neither exited nor joined; with
one more monitor step before `stop` the thread has returned but is not joined,
and a `start` after that `stop` terminates the process. -/
theorem stop_after_monitor_cleared_running :
    (GstRtspStreamer.new.run
        [.initialize_call GstLibrary.working "rtsp://cam.local/stream1" true, .start_call [],
         .monitor (some .GST_MESSAGE_EOS), .stop_call]).map
      (fun s => (s.is_running, s.message_thread)) = some (false, .executing)
    ∧ (GstRtspStreamer.new.run
        [.initialize_call GstLibrary.working "rtsp://cam.local/stream1" true, .start_call [],
         .monitor (some .GST_MESSAGE_EOS), .monitor none, .stop_call]).map
      (fun s => (s.is_running, s.message_thread)) = some (false, .returned)
    ∧ (GstRtspStreamer.new.run
        [.initialize_call GstLibrary.working "rtsp://cam.local/stream1" true, .start_call [],
         .monitor (some .GST_MESSAGE_EOS), .monitor none, .stop_call, .start_call []]).map
      (fun s => (s.is_running, s.message_thread)) = none := by
  decide

/-- C4: while `running` holds, an error or end-of-stream message clears `running`
and the loop is left with the rest of the bus unpopped; any other message, and
a timed-out wait, leaves the whole object as it is and the loop goes on with
the rest of the bus. -/
theorem handle_messages_notification (self : GstRtspStreamer)
    (bus : List (Option GstMessageType)) (h : self.running = true) :
    (∀ msg, msg = some .GST_MESSAGE_ERROR ∨ msg = some .GST_MESSAGE_EOS →
        (self.handle_message msg).running = false
        ∧ self.handle_messages (msg :: bus)
            = ({ self with running := false, message_thread := .returned }, bus))
    ∧ (∀ msg, msg ≠ some .GST_MESSAGE_ERROR → msg ≠ some .GST_MESSAGE_EOS →
        self.handle_message msg = self
        ∧ self.handle_messages (msg :: bus) = self.handle_messages bus) := by
  constructor
  · rintro msg (rfl | rfl)
    · refine ⟨rfl, ?_⟩
      cases bus <;> simp [GstRtspStreamer.handle_messages, GstRtspStreamer.handle_message, h]
    · refine ⟨rfl, ?_⟩
      cases bus <;> simp [GstRtspStreamer.handle_messages, GstRtspStreamer.handle_message, h]
  · intro msg he hs
    have hm : self.handle_message msg = self := by
      match msg, he, hs with
      | none, _, _ => rfl
      | some (.other _), _, _ => rfl
      | some .GST_MESSAGE_ERROR, he, _ => exact absurd rfl he
      | some .GST_MESSAGE_EOS, _, hs => exact absurd rfl hs
    refine ⟨hm, ?_⟩
    simp [GstRtspStreamer.handle_messages, h, hm]

/-- Instance of C4: a running monitor whose bus holds an error followed by two
more messages; the two are left unpopped. -/
theorem handle_messages_notification_witness :
    ({ GstRtspStreamer.new with running := true, message_thread := .executing }
        : GstRtspStreamer).running = true
    ∧ ({ GstRtspStreamer.new with running := true, message_thread := .executing }
        : GstRtspStreamer).handle_messages
          [some .GST_MESSAGE_ERROR, some (.other 64), some .GST_MESSAGE_EOS]
        = ({ GstRtspStreamer.new with running := false, message_thread := .returned },
            [some (.other 64), some .GST_MESSAGE_EOS]) :=
  ⟨by decide,
    ((handle_messages_notification
      { GstRtspStreamer.new with running := true, message_thread := .executing }
      [some (.other 64), some .GST_MESSAGE_EOS] (by decide)).1
        (some .GST_MESSAGE_ERROR) (Or.inl rfl)).2⟩

/-- C6, at the failing input: `set_low_latency_mode(false)` followed by
`initialize(url)` with its default flag `true` builds a low-latency graph: source
latency 0, encoder without B-frames and lookahead, sink queue of depth 1. -/
theorem set_low_latency_mode_lost :
    ( GstRtspStreamer.initialize GstLibrary.working
        (GstRtspStreamer.new.set_low_latency_mode false) "rtsp://cam.local/stream1" true).2 = true
    ∧ g_object_get ( GstRtspStreamer.initialize GstLibrary.working
        (GstRtspStreamer.new.set_low_latency_mode false) "rtsp://cam.local/stream1" true).1.source
        "latency" = some (.int 0)
    ∧ g_object_get ( GstRtspStreamer.initialize GstLibrary.working
        (GstRtspStreamer.new.set_low_latency_mode false) "rtsp://cam.local/stream1" true).1.encoder
        "bframes" = some (.int 0)
    ∧ g_object_get ( GstRtspStreamer.initialize GstLibrary.working
        (GstRtspStreamer.new.set_low_latency_mode false) "rtsp://cam.local/stream1" true).1.encoder
        "rc-lookahead" = some (.int 0)
    ∧ g_object_get ( GstRtspStreamer.initialize GstLibrary.working
        (GstRtspStreamer.new.set_low_latency_mode false) "rtsp://cam.local/stream1" true).1.appsink
        "max-buffers" = some (.int 1) := by
  decide

/-- C7: `set_resolution(w, h)` and `set_target_bitrate(r)`, in either order, change
the three target members and nothing else (pipeline, elements and `running` are
as before); when the next `initialize` succeeds, the capability filter of the
graph it builds carries width `w` and height `h` and the encoder bitrate is `r`. -/
theorem setters_reach_next_graph (lib : GstLibrary) (self : GstRtspStreamer) (w h r : Int)
    (url : String) (low_latency_mode : Bool) :
    (self.set_resolution w h).set_target_bitrate r
      = { self with target_width := w, target_height := h, target_bitrate := r }
    ∧ (self.set_target_bitrate r).set_resolution w h
      = { self with target_width := w, target_height := h, target_bitrate := r }
    ∧ (( GstRtspStreamer.initialize lib ((self.set_resolution w h).set_target_bitrate r) url
          low_latency_mode).2 = true →
        g_object_get ( GstRtspStreamer.initialize lib
            ((self.set_resolution w h).set_target_bitrate r) url low_latency_mode).1.capsfilter
            "caps"
          = some (.caps ⟨"video/x-raw", [("width", .int w), ("height", .int h),
              ("framerate", .fraction 30 1)]⟩)
        ∧ g_object_get ( GstRtspStreamer.initialize lib
            ((self.set_resolution w h).set_target_bitrate r) url low_latency_mode).1.encoder
            "bitrate" = some (.int r)) := by
  refine ⟨rfl, rfl, ?_⟩
  intro hok
  rw [initialize_returns] at hok
  simp only [ GstRtspStreamer.initialize]
  have hc := create_pipeline_configuration lib
    { (self.set_resolution w h).set_target_bitrate r with
      rtsp_url := url, low_latency := low_latency_mode } hok
  exact ⟨hc.2.2.2.2.1, hc.2.2.2.2.2⟩

/-- Instance of C7: 1280x720 at 2500 kbps on a built, stopped object. -/
theorem setters_reach_next_graph_witness :
    ( GstRtspStreamer.initialize GstLibrary.working
        ((( GstRtspStreamer.initialize GstLibrary.working GstRtspStreamer.new
          "rtsp://cam.local/stream1" true).1.set_resolution 1280 720).set_target_bitrate 2500)
        "rtsp://cam.local/stream1" false).2 = true
    ∧ g_object_get ( GstRtspStreamer.initialize GstLibrary.working
        ((( GstRtspStreamer.initialize GstLibrary.working GstRtspStreamer.new
          "rtsp://cam.local/stream1" true).1.set_resolution 1280 720).set_target_bitrate 2500)
        "rtsp://cam.local/stream1" false).1.capsfilter "caps"
        = some (.caps ⟨"video/x-raw", [("width", .int 1280), ("height", .int 720),
            ("framerate", .fraction 30 1)]⟩)
    ∧ g_object_get ( GstRtspStreamer.initialize GstLibrary.working
        ((( GstRtspStreamer.initialize GstLibrary.working GstRtspStreamer.new
          "rtsp://cam.local/stream1" true).1.set_resolution 1280 720).set_target_bitrate 2500)
        "rtsp://cam.local/stream1" false).1.encoder "bitrate" = some (.int 2500) :=
  ⟨by decide,
    (setters_reach_next_graph GstLibrary.working
      ( GstRtspStreamer.initialize GstLibrary.working GstRtspStreamer.new
        "rtsp://cam.local/stream1" true).1 1280 720 2500 "rtsp://cam.local/stream1" false).2.2
      (by decide)⟩

/-- C8: with a sample whose buffer maps, after any earlier registrations followed
by the registration of `callback`, `on_new_sample` makes exactly one call, of
`callback`, with the mapped data pointer, the mapped size and the width and
height read from the caps of the sample (the integers `w`, `h` the caps carry);
without a sample, with a failed mapping, or with no callback registered it
makes no call. -/
theorem on_new_sample_calls_latest_callback (invoke : FrameCall → CallOutcome)
    (width0 height0 : Int) (self : GstRtspStreamer) (earlier : List (Option FrameCallback))
    (callback : FrameCallback) (sample : GstSample) :
    (∀ map, sample.buffer.map = some map →
        (on_new_sample invoke width0 height0 (some sample)
          ((self.set_frame_callbacks earlier).set_frame_callback (some callback))).calls
          = [⟨callback, map.data, map.size, gst_structure_get_int sample.caps "width" width0,
              gst_structure_get_int sample.caps "height" height0⟩]
        ∧ ∀ w h, sample.caps.fields.lookup "width" = some (.int w) →
            sample.caps.fields.lookup "height" = some (.int h) →
            (on_new_sample invoke width0 height0 (some sample)
              ((self.set_frame_callbacks earlier).set_frame_callback (some callback))).calls
              = [⟨callback, map.data, map.size, w, h⟩])
    ∧ (on_new_sample invoke width0 height0 none self).calls = []
    ∧ (sample.buffer.map = none →
        (on_new_sample invoke width0 height0 (some sample) self).calls = [])
    ∧ (self.frame_callback = none →
        (on_new_sample invoke width0 height0 (some sample) self).calls = []) := by
  refine ⟨?_, rfl, ?_, ?_⟩
  · intro map hmap
    have hcalls : (on_new_sample invoke width0 height0 (some sample)
          ((self.set_frame_callbacks earlier).set_frame_callback (some callback))).calls
          = [⟨callback, map.data, map.size, gst_structure_get_int sample.caps "width" width0,
              gst_structure_get_int sample.caps "height" height0⟩] := by
      cases hi : invoke ⟨callback, map.data, map.size,
          gst_structure_get_int sample.caps "width" width0,
          gst_structure_get_int sample.caps "height" height0⟩ <;>
        simp [on_new_sample, hmap, GstRtspStreamer.set_frame_callback, hi]
    refine ⟨hcalls, ?_⟩
    intro w h hw hh
    rw [hcalls]
    simp [gst_structure_get_int, hw, hh]
  · intro hmap
    simp [on_new_sample, hmap]
  · intro hcb
    cases hmap : sample.buffer.map <;> simp [on_new_sample, hmap, hcb]

/-- Instance of C8: callbacks 1 and 2 registered, then callback 3. -/
theorem on_new_sample_calls_latest_callback_witness :
    (⟨⟨some ⟨4096, 16⟩⟩, ⟨"video/x-h264", [("width", .int 640), ("height", .int 480)]⟩⟩
      : GstSample).buffer.map = some ⟨4096, 16⟩
    ∧ (on_new_sample (fun _ => .returns) 0 0
        (some ⟨⟨some ⟨4096, 16⟩⟩, ⟨"video/x-h264", [("width", .int 640), ("height", .int 480)]⟩⟩)
        ((GstRtspStreamer.new.set_frame_callbacks [some ⟨1⟩, some ⟨2⟩]).set_frame_callback
          (some ⟨3⟩))).calls = [⟨⟨3⟩, 4096, 16, 640, 480⟩] :=
  ⟨rfl,
    ((on_new_sample_calls_latest_callback (fun _ => .returns) 0 0 GstRtspStreamer.new
      [some ⟨1⟩, some ⟨2⟩] ⟨3⟩
      ⟨⟨some ⟨4096, 16⟩⟩, ⟨"video/x-h264", [("width", .int 640), ("height", .int 480)]⟩⟩).1
      ⟨4096, 16⟩ rfl).2 640 480 (by decide) (by decide)⟩

/-- C9: in every graph that `initialize` builds successfully, the sink has
`emit-signals` true, `sync` false, `drop` true, and `max-buffers` 1 when the
graph was built in low-latency mode and 3 otherwise. -/
theorem sink_configuration (lib : GstLibrary) (self : GstRtspStreamer) (url : String)
    (low_latency_mode : Bool)
    (hok : ( GstRtspStreamer.initialize lib self url low_latency_mode).2 = true) :
    g_object_get ( GstRtspStreamer.initialize lib self url low_latency_mode).1.appsink
        "emit-signals" = some (.bool true)
    ∧ g_object_get ( GstRtspStreamer.initialize lib self url low_latency_mode).1.appsink
        "sync" = some (.bool false)
    ∧ g_object_get ( GstRtspStreamer.initialize lib self url low_latency_mode).1.appsink
        "drop" = some (.bool true)
    ∧ g_object_get ( GstRtspStreamer.initialize lib self url low_latency_mode).1.appsink
        "max-buffers" = some (.int (if low_latency_mode then 1 else 3))
    ∧ ( GstRtspStreamer.initialize lib self url low_latency_mode).1.low_latency
        = low_latency_mode := by
  rw [initialize_returns] at hok
  have hc := create_pipeline_configuration lib
    { self with rtsp_url := url, low_latency := low_latency_mode } hok
  have hl : ( GstRtspStreamer.initialize lib self url low_latency_mode).1.low_latency
      = low_latency_mode := by
    simp only [ GstRtspStreamer.initialize]
    exact create_pipeline_low_latency lib _
  exact ⟨hc.1, hc.2.1, hc.2.2.1, hc.2.2.2.1, hl⟩

/-- Instance of C9: a graph built with the low-latency flag off. -/
theorem sink_configuration_witness :
    ( GstRtspStreamer.initialize GstLibrary.working GstRtspStreamer.new
        "rtsp://cam.local/stream1" false).2 = true
    ∧ g_object_get ( GstRtspStreamer.initialize GstLibrary.working GstRtspStreamer.new
        "rtsp://cam.local/stream1" false).1.appsink "max-buffers" = some (.int 3) :=
  ⟨by decide,
    (sink_configuration GstLibrary.working GstRtspStreamer.new "rtsp://cam.local/stream1" false
      (by decide)).2.2.2.1⟩

/-- C10: once the sink pad of the depacketizer is linked (here after the
notifications `earlier`), any later notifications leave the element as it is
and give no pad to `gst_pad_link`, so the whole sequence ends as `earlier` alone
did; and from the depacketizer as created (no peer on its sink pad), after any
notifications the sink pad has at most one peer. -/
theorem on_pad_added_idempotent (depay : GstElement) (earlier later : List PadAdded) :
    (gst_pad_is_linked (pad_added_sequence depay earlier).1 = true →
        pad_added_sequence (pad_added_sequence depay earlier).1 later
          = ((pad_added_sequence depay earlier).1, [])
        ∧ pad_added_sequence depay (earlier ++ later) = pad_added_sequence depay earlier)
    ∧ (depay.sink_peers = [] →
        (pad_added_sequence depay (earlier ++ later)).1.sink_peers.length ≤ 1) := by
  constructor
  · intro hlinked
    have hlater := pad_added_sequence_linked _ later hlinked
    refine ⟨hlater, ?_⟩
    rw [pad_added_sequence_append, hlater]
    simp
  · intro hfresh
    exact pad_added_sequence_peers depay (earlier ++ later) (by simp [hfresh])

/-- Instance of C10: a first link that fails, a second that succeeds, two more
notifications after it. -/
theorem on_pad_added_idempotent_witness :
    gst_pad_is_linked (pad_added_sequence ⟨"rtph264depay", "depay", [], [], []⟩
        [⟨"recv_rtp_src_0", false⟩, ⟨"recv_rtp_src_1", true⟩]).1 = true
    ∧ pad_added_sequence ⟨"rtph264depay", "depay", [], [], []⟩
        ([⟨"recv_rtp_src_0", false⟩, ⟨"recv_rtp_src_1", true⟩]
          ++ [⟨"recv_rtp_src_2", true⟩, ⟨"recv_rtp_src_3", true⟩])
      = pad_added_sequence ⟨"rtph264depay", "depay", [], [], []⟩
        [⟨"recv_rtp_src_0", false⟩, ⟨"recv_rtp_src_1", true⟩]
    ∧ (pad_added_sequence ⟨"rtph264depay", "depay", [], [], []⟩
        [⟨"recv_rtp_src_0", false⟩, ⟨"recv_rtp_src_1", true⟩]).2
      = ["recv_rtp_src_0", "recv_rtp_src_1"] :=
  ⟨by decide,
    ((on_pad_added_idempotent ⟨"rtph264depay", "depay", [], [], []⟩
      [⟨"recv_rtp_src_0", false⟩, ⟨"recv_rtp_src_1", true⟩]
      [⟨"recv_rtp_src_2", true⟩, ⟨"recv_rtp_src_3", true⟩]).1 (by decide)).2,
    by decide⟩
